import Mathlib

/-!
Verification development for the pywarp relying-party implementation of the
WebAuthn/FIDO2 registration and authentication protocol.

The Python sources `pywarp/rp.py` and `pywarp/fido/metadata.py` are embedded
shallowly below: byte strings become `List Nat`, the storage backend becomes an
explicit record of saved challenges and credentials, Python exceptions become
an `Err` sum carried in `Except`, and external library calls (CBOR, JSON,
UTF-8, SHA-256, ECDSA, HTTP) become fields of an `Env` record of oracle
functions. Helper modules of the repository that are referenced by `rp.py`
but whose sources are not available (`authenticators.py`, `attestation.py`,
`cose.py`, `util.py`) are modelled from the specification's description and
marked as such in their doc comments.
-/

namespace Pywarp

/-- Byte strings (Python `bytes`) as lists of naturals. -/
abbrev Bytes := List Nat

/-- Exception kinds raised by the embedded code, mirroring the Python
exception classes raised by the corresponding calls. Every bare `assert`
statement in `rp.py` raises the same undifferentiated `AssertionError`; the
embedding keeps that as the single constructor `assertionError`. -/
inductive Err where
  | malformedInput
  | attributeError
  | invalidEmail
  | jsonError
  | keyError
  | assertionError
  | binasciiError
  | unicodeDecodeError
  | missingAttestedCredentialData
  | malformedAttestation
  | attestationSignatureInvalid
  | verificationError
  | credentialNotFound
  | httpError
deriving DecidableEq

instance {ε α : Type} [DecidableEq ε] [DecidableEq α] :
    DecidableEq (Except ε α) := fun x y =>
  match x, y with
  | .ok a, .ok b =>
      if h : a = b then isTrue (by rw [h])
      else isFalse (fun hh => by cases hh; exact h rfl)
  | .error e, .error f =>
      if h : e = f then isTrue (by rw [h])
      else isFalse (fun hh => by cases hh; exact h rfl)
  | .ok _, .error _ => isFalse (fun hh => by cases hh)
  | .error _, .ok _ => isFalse (fun hh => by cases hh)

/-- Python dictionary item access: raises `KeyError` when the key is absent. -/
def getItem {α : Type} : Option α → Except Err α
  | some a => .ok a
  | none => .error .keyError

/-- A bare Python `assert`: raises an undifferentiated `AssertionError` when
the condition is false. -/
def pyAssert (b : Bool) : Except Err Unit :=
  if b then .ok () else .error .assertionError

/-- Python truthiness of an optional string: `None` and `""` are falsy. -/
def strTruthy : Option String → Bool
  | none => false
  | some s => !(s == "")

/-- Python `x if x else d` over an optional string (`None` and `""` fall back
to the default). -/
def pyStrOr (v : Option String) (d : String) : String :=
  match v with
  | none => d
  | some s => if s == "" then d else s

/-- Value of index `n` of the base64url alphabet `A-Z a-z 0-9 - _`. -/
def b64Char (n : Nat) : Char :=
  if n < 26 then Char.ofNat (65 + n)
  else if n < 52 then Char.ofNat (97 + (n - 26))
  else if n < 62 then Char.ofNat (48 + (n - 52))
  else if n = 62 then '-' else '_'

/-- Three input bytes become four alphabet characters; a trailing group of two
or one bytes is zero-extended and padded with `=`. -/
def b64EncodeChunks : Bytes → List Char
  | b1 :: b2 :: b3 :: rest =>
      let w := b1 * 65536 + b2 * 256 + b3
      b64Char (w / 262144 % 64) :: b64Char (w / 4096 % 64) ::
        b64Char (w / 64 % 64) :: b64Char (w % 64) :: b64EncodeChunks rest
  | [b1, b2] =>
      let w := b1 * 1024 + b2 * 4
      [b64Char (w / 4096 % 64), b64Char (w / 64 % 64), b64Char (w % 64), '=']
  | [b1] =>
      let w := b1 * 16
      [b64Char (w / 64 % 64), b64Char (w % 64), '=', '=']
  | [] => []

/-- Modelled from the spec: `util.b64_encode` (source file `util.py` not
provided); base64url encoding of a byte string, as required by the wire
convention that challenges and credential IDs are base64url-encoded in JSON
option payloads. -/
def b64Encode (bs : Bytes) : String := ⟨b64EncodeChunks bs⟩

/-- Index of a character in the base64url alphabet; anything else raises the
binascii decoding error. -/
def b64CharVal (c : Char) : Except Err Nat :=
  if 'A' ≤ c ∧ c ≤ 'Z' then .ok (c.toNat - 65)
  else if 'a' ≤ c ∧ c ≤ 'z' then .ok (c.toNat - 97 + 26)
  else if '0' ≤ c ∧ c ≤ '9' then .ok (c.toNat - 48 + 52)
  else if c = '-' then .ok 62
  else if c = '_' then .ok 63
  else .error .binasciiError

/-- Four 6-bit values become three bytes; a trailing group of three or two
values yields two or one bytes, and a single trailing value is malformed. -/
def b64DecodeVals : List Nat → Except Err Bytes
  | a :: b :: c :: d :: rest => do
      let w := a * 262144 + b * 4096 + c * 64 + d
      let tail ← b64DecodeVals rest
      .ok (w / 65536 :: w / 256 % 256 :: w % 256 :: tail)
  | [a, b, c] =>
      let w := a * 4096 + b * 64 + c
      .ok [w / 1024, w / 4 % 256]
  | [a, b] => .ok [(a * 64 + b) / 16]
  | [_] => .error .binasciiError
  | [] => .ok []

/-- Modelled from the spec: `util.b64url_decode` (source file `util.py` not
provided); strict base64url decoding of a string, ignoring `=` padding. -/
def b64urlDecode (s : String) : Except Err Bytes := do
  let vals ← (s.toList.filter (fun c => !(c == '='))).mapM b64CharVal
  b64DecodeVals vals

/-- Embedding of `re.match(r"[^@]+@[^@]+\.[^@]+", email)` from `rp.py`.
`re.match` anchors at the start only, so the string matches iff it decomposes
as `A ++ "@" ++ B ++ "." ++ c ++ R` with `A` and `B` nonempty and free of
`@`, and `c` a single character other than `@` (`R` arbitrary). Scanning:
take the part before the first `@`; it must be nonempty; in the maximal
`@`-free run after that `@`, a `.` must occur at an index `j` with
`1 ≤ j ≤ run.length - 2`. -/
def emailMatch (s : String) : Bool :=
  let cs := s.toList
  let before := cs.takeWhile (fun c => !(c == '@'))
  match cs.dropWhile (fun c => !(c == '@')) with
  | [] => false
  | _ :: t =>
      let run := t.takeWhile (fun c => !(c == '@'))
      !before.isEmpty && ((run.drop 1).dropLast.contains '.')

/-- The result of `json.loads(client_data_json)` as consumed by `rp.py`: a
dictionary whose keys `"type"`, `"challenge"` and `"origin"` may each be
absent (access to an absent key raises `KeyError`). -/
structure ClientData where
  ty : Option String
  challenge : Option String
  origin : Option String
deriving DecidableEq

/-- Modelled from the spec: the U2F attestation statement (`attestation.py`
not provided), fields `sig` (raw ECDSA signature) and `x5c` (ordered list of
DER certificates; the U2F format defines exactly one). -/
structure FIDOU2FAttestationStatement where
  sig : Bytes
  x5c : List Bytes
deriving DecidableEq

/-- The result of `cbor2.loads(attestation_object)` as consumed by `rp.py`:
a CBOR map whose keys `"authData"`, `"fmt"` and `"attStmt"` may each be
absent (access to an absent key raises `KeyError`). -/
structure AttestationResponse where
  authData : Option Bytes
  fmt : Option String
  attStmt : Option FIDOU2FAttestationStatement
deriving DecidableEq

/-- The durable result of a successful registration: credential ID plus the
COSE-encoded public key, as extracted from attested credential data. -/
structure Credential where
  id : Bytes
  publicKey : Bytes
deriving DecidableEq

/-- The caller-implemented storage backend, modelled as explicit state:
saved challenges keyed by (email, purpose) and saved credentials keyed by
email, most recently saved first. -/
structure Storage where
  challenges : List (String × String × Bytes)
  credentials : List (String × Credential)
deriving DecidableEq

def Storage.saveChallengeForUser (st : Storage) (email : String)
    (challenge : Bytes) (ty : String) : Storage :=
  { st with challenges := (email, ty, challenge) :: st.challenges }

def Storage.getChallengeForUser (st : Storage) (email ty : String) :
    Except Err Bytes :=
  match st.challenges.find? (fun e => e.1 == email && e.2.1 == ty) with
  | some e => .ok e.2.2
  | none => .error .keyError

def Storage.saveCredentialForUser (st : Storage) (email : String)
    (credential : Credential) : Storage :=
  { st with credentials := (email, credential) :: st.credentials }

def Storage.getCredentialByEmail (st : Storage) (email : String) :
    Except Err Credential :=
  match st.credentials.find? (fun e => e.1 == email) with
  | some e => .ok e.2
  | none => .error .credentialNotFound

/-- Oracle functions for the external libraries the code calls: random bytes
(`secrets.token_bytes`), SHA-256 (`hashlib`), UTF-8 codecs (`str.encode`,
`bytes.decode`), JSON and CBOR decoding (`json.loads`, `cbor2.loads`),
extraction of the x/y coordinates of a COSE EC key, ECDSA verification with
an attestation certificate's public key and with a stored COSE public key,
and the metadata-service HTTP fetch composed with its base64/JSON decoding. -/
structure Env where
  tokenBytes : Nat → Bytes
  sha256 : Bytes → Bytes
  utf8Encode : String → Bytes
  utf8Decode : Bytes → Except Err String
  jsonLoads : Bytes → Except Err ClientData
  cborLoads : Bytes → Except Err AttestationResponse
  coseXY : Bytes → Except Err (Bytes × Bytes)
  certVerify : Bytes → Bytes → Bytes → Bool
  pkVerify : Bytes → Bytes → Bytes → Bool
  fetchRecord : String → Bytes

/-- The `email` argument of `register`/`verify` as a dynamically typed Python
value: a byte string (on which `.decode()` succeeds, subject to UTF-8
validity) or a text string (on which `.decode()` raises `AttributeError`). -/
inductive PyStr where
  | bytes (b : Bytes)
  | str (s : String)

/-- Python `email.decode()`: UTF-8 decoding for `bytes`, `AttributeError`
for `str`. -/
def PyStr.pyDecode (env : Env) : PyStr → Except Err String
  | .bytes b => env.utf8Decode b
  | .str _ => .error .attributeError

/-- Attested credential data block: AAGUID (16 bytes), length-prefixed
credential ID, and the trailing COSE-encoded credential public key. -/
structure AttestedCredentialData where
  aaguid : Bytes
  credentialId : Bytes
  credentialPublicKey : Bytes
deriving DecidableEq

/-- Parsed authenticator data; `rawAuthData` retains the input verbatim
because it is part of the signed payload. -/
structure AuthenticatorData where
  rpIdHash : Bytes
  flags : Nat
  signatureCounter : Nat
  attestedCredentialData : Option AttestedCredentialData
  rawAuthData : Bytes
deriving DecidableEq

/-- Flag bit 0: user present. -/
def AuthenticatorData.userPresent (ad : AuthenticatorData) : Bool :=
  ad.flags.testBit 0

/-- Flag bit 2: user verified. -/
def AuthenticatorData.userVerified (ad : AuthenticatorData) : Bool :=
  ad.flags.testBit 2

/-- Big-endian byte-string-to-natural conversion. -/
def beBytesToNat (bs : Bytes) : Nat := bs.foldl (fun a b => a * 256 + b) 0

/-- Modelled from the spec: parsing of the fixed-layout authenticator data
(`authenticators.py` not provided; spec section 4.1): fewer than 37 bytes is
malformed; bytes 0-31 are the RP-ID hash, byte 32 the flags, bytes 33-36 the
big-endian signature counter; if flag bit 6 is set the trailer must decode as
AAGUID (16 bytes), a 16-bit big-endian credential-ID length, the credential
ID, and the remaining COSE key bytes (a credential-ID length exceeding the
remaining bytes is malformed; COSE-level truncation is not representable
without a CBOR model, so the remainder is taken as the key). -/
def parseAuthenticatorData (raw : Bytes) : Except Err AuthenticatorData :=
  if raw.length < 37 then .error .malformedInput else
  let rpIdHash := raw.take 32
  let flags := raw.getD 32 0
  let counter := beBytesToNat ((raw.drop 33).take 4)
  if flags.testBit 6 then
    let trailer := raw.drop 37
    if trailer.length < 18 then .error .malformedInput else
    let len := (trailer.getD 16 0) * 256 + trailer.getD 17 0
    let rest := trailer.drop 18
    if rest.length < len then .error .malformedInput else
    .ok { rpIdHash := rpIdHash, flags := flags, signatureCounter := counter,
          attestedCredentialData :=
            some { aaguid := trailer.take 16, credentialId := rest.take len,
                   credentialPublicKey := rest.drop len },
          rawAuthData := raw }
  else
    .ok { rpIdHash := rpIdHash, flags := flags, signatureCounter := counter,
          attestedCredentialData := none, rawAuthData := raw }

/-- The attestation result wraps the extracted credential. -/
structure Attestation where
  credential : Credential
deriving DecidableEq

/-- Modelled from the spec: FIDO-U2F attestation-statement validation
(`attestation.py` not provided; spec section 4.3): require attested
credential data; require exactly one certificate in `x5c`; build the signed
byte string `0x00 || rp_id_hash || client_data_hash || credential_id ||
0x04 || x || y`; verify `sig` over it with the certificate's public key;
return the credential (ID plus COSE key) on success. -/
def FIDOU2FAttestationStatement.validate (env : Env)
    (stmt : FIDOU2FAttestationStatement) (ad : AuthenticatorData)
    (rpIdHash clientDataHash : Bytes) : Except Err Attestation := do
  let acd ← match ad.attestedCredentialData with
    | some a => Except.ok a
    | none => Except.error Err.missingAttestedCredentialData
  let cert ← match stmt.x5c with
    | [c] => Except.ok c
    | _ => Except.error Err.malformedAttestation
  let xy ← env.coseXY acd.credentialPublicKey
  let signedBytes :=
    0 :: (rpIdHash ++ clientDataHash ++ acd.credentialId ++ (4 :: (xy.1 ++ xy.2)))
  if env.certVerify cert stmt.sig signedBytes then
    .ok ⟨⟨acd.credentialId, acd.credentialPublicKey⟩⟩
  else .error .attestationSignatureInvalid

namespace Algorithms

/-- Modelled from the spec: COSE algorithm identifier ES256 (`cose.py` not
provided). -/
def ES256 : Int := -7

/-- Modelled from the spec: COSE algorithm identifier ES384 (`cose.py` not
provided). -/
def ES384 : Int := -35

/-- Modelled from the spec: COSE algorithm identifier ES512 (`cose.py` not
provided). -/
def ES512 : Int := -36

end Algorithms

/-- The options record built by `get_registration_options`. -/
structure RegistrationOptions where
  challenge : String
  rpName : String
  rpId : Option String
  userId : String
  userName : String
  userDisplayName : String
  userIcon : Option String
  pubKeyCredParams : List Int
  timeout : Nat
  excludeCredentials : List String
  attestation : String
  extensionsLoc : Bool
deriving DecidableEq

/-- `RelyingPartyManager.get_registration_options`: generate a fresh 32-byte
challenge, build the options record (challenge base64url-encoded), and save
the challenge for the user under purpose `"registration"`. -/
def getRegistrationOptions (env : Env) (st : Storage) (rpName : String)
    (rpId : Option String) (email : String) (displayName : Option String)
    (icon : Option String) : RegistrationOptions × Storage :=
  let challenge := env.tokenBytes 32
  let options : RegistrationOptions := {
    challenge := b64Encode challenge
    rpName := rpName
    rpId := rpId
    userId := b64Encode (env.utf8Encode email)
    userName := email
    userDisplayName := pyStrOr displayName email
    userIcon := icon
    pubKeyCredParams := [Algorithms.ES256, Algorithms.ES384, Algorithms.ES512]
    timeout := 60 * 1000
    excludeCredentials := []
    attestation := "direct"
    extensionsLoc := true }
  (options, st.saveChallengeForUser email challenge "registration")

/-- One entry of the `allowCredentials` list: type tag and base64url-encoded
credential ID. -/
structure AllowCredential where
  ty : String
  id : String
deriving DecidableEq

/-- The options record built by `get_authentication_options`. The
`challenge` field holds the raw challenge bytes exactly as the code places
them in the dictionary (the code does not base64url-encode here, unlike the
registration path). -/
structure AuthenticationOptions where
  challenge : Bytes
  timeout : Nat
  allowCredentials : List AllowCredential
deriving DecidableEq

/-- `RelyingPartyManager.get_authentication_options`: fetch the stored
credential, generate a fresh 32-byte challenge, build the options record,
and save the challenge for the user under purpose `"authentication"`. -/
def getAuthenticationOptions (env : Env) (st : Storage) (email : String) :
    Except Err (AuthenticationOptions × Storage) := do
  let credential ← st.getCredentialByEmail email
  let challenge := env.tokenBytes 32
  let options : AuthenticationOptions := {
    challenge := challenge
    timeout := 60 * 1000
    allowCredentials := [⟨"public-key", b64Encode credential.id⟩] }
  .ok (options, st.saveChallengeForUser email challenge "authentication")

/-- `RelyingPartyManager.is_secure_and_same_origin`: the declared origin is
accepted iff the string `"https://" ++ rp_id` is a prefix of it (Python
`str.startswith`). -/
def isSecureAndSameOrigin (rpId : String) (origin : String) : Bool :=
  ("https://" ++ rpId).toList.isPrefixOf origin.toList

/-- The `if self.rp_id: assert self.is_secure_and_same_origin(...)` step
shared verbatim by `register` and `verify`: when `rp_id` is falsy no origin
check is performed at all; otherwise the declared origin is read from the
client data (`KeyError` if absent) and asserted. -/
def originCheck (rpId : Option String) (clientData : ClientData) :
    Except Err Unit :=
  if strTruthy rpId then do
    let origin ← getItem clientData.origin
    pyAssert (isSecureAndSameOrigin (rpId.getD "") origin)
  else .ok ()

/-- The `if not re.match(...): raise Exception("Invalid email address")`
statement shared verbatim by `register` and `verify`. -/
def emailShapeCheck (emailS : String) : Except Err Unit :=
  if emailMatch emailS then .ok () else .error .invalidEmail

/-- Modelled from the spec: the stored credential's `verify(signature,
signed_bytes)` (`cose.py` not provided; spec section 4.2): ECDSA
verification with the credential's public key, raising the verification
error when the signature does not validate. -/
def Credential.verify (c : Credential) (env : Env) (signature msg : Bytes) :
    Except Err Unit :=
  if env.pkVerify c.publicKey signature msg then .ok ()
  else .error .verificationError

/-- The result dictionary of a successful `register`. -/
structure RegisterResult where
  registered : Bool
deriving DecidableEq

/-- `RelyingPartyManager.register`, exception-monad form: the linear sequence
of steps in source order. Decode the attestation object (CBOR); decode and
shape-check the email; hash and parse the client data JSON; require type
`"webauthn.create"`; fetch the stored registration challenge and require the
base64url-decoded declared challenge to equal it; origin check when `rp_id`
is truthy; parse the authenticator data and require the user-present flag;
require `fmt == "fido-u2f"`; validate the attestation statement with the
RP-ID hash taken from the parsed authenticator data; finally save the
extracted credential for the user. -/
def registerE (env : Env) (st : Storage) (rpId : Option String)
    (clientDataJson attestationObject : Bytes) (email : PyStr) :
    Except Err (RegisterResult × Storage) :=
  env.cborLoads attestationObject >>= fun resp =>
  email.pyDecode env >>= fun emailS =>
  emailShapeCheck emailS >>= fun _ =>
  env.jsonLoads clientDataJson >>= fun clientData =>
  getItem clientData.ty >>= fun ty =>
  pyAssert (ty == "webauthn.create") >>= fun _ =>
  st.getChallengeForUser emailS "registration" >>= fun expectChallenge =>
  getItem clientData.challenge >>= fun declaredChallenge =>
  b64urlDecode declaredChallenge >>= fun decoded =>
  pyAssert (decoded == expectChallenge) >>= fun _ =>
  originCheck rpId clientData >>= fun _ =>
  getItem resp.authData >>= fun authDataRaw =>
  parseAuthenticatorData authDataRaw >>= fun ad =>
  pyAssert ad.userPresent >>= fun _ =>
  getItem resp.fmt >>= fun fmt =>
  pyAssert (fmt == "fido-u2f") >>= fun _ =>
  getItem resp.attStmt >>= fun stmt =>
  stmt.validate env ad ad.rpIdHash (env.sha256 clientDataJson) >>= fun att =>
  .ok (⟨true⟩, st.saveCredentialForUser emailS att.credential)

/-- `register` paired with the storage state after the call: the only
storage write is the final `save_credential_for_user`, so when any step
raises, the backend state is the unchanged input state. -/
def register (env : Env) (st : Storage) (rpId : Option String)
    (clientDataJson attestationObject : Bytes) (email : PyStr) :
    Except Err RegisterResult × Storage :=
  match registerE env st rpId clientDataJson attestationObject email with
  | .ok (r, st') => (.ok r, st')
  | .error e => (.error e, st)

/-- The result dictionary of a successful `verify`. -/
structure VerifyResult where
  verified : Bool
deriving DecidableEq

/-- `RelyingPartyManager.verify`: decode and shape-check the email; hash and
parse the client data JSON; require type `"webauthn.get"`; fetch the stored
authentication challenge and require the base64url-decoded declared
challenge to equal it; origin check when `rp_id` is truthy; parse the
authenticator data and require the user-present flag; fetch the stored
credential; verify the signature over `raw_auth_data ++ client_data_hash`
with the stored credential's public key (modelled from the spec: the COSE
key's `verify`, `cose.py` not provided, raises on an invalid signature). -/
def verify (env : Env) (st : Storage) (rpId : Option String)
    (authenticatorData clientDataJson signature userHandle rawId : Bytes)
    (email : PyStr) : Except Err VerifyResult :=
  email.pyDecode env >>= fun emailS =>
  emailShapeCheck emailS >>= fun _ =>
  env.jsonLoads clientDataJson >>= fun clientData =>
  getItem clientData.ty >>= fun ty =>
  pyAssert (ty == "webauthn.get") >>= fun _ =>
  st.getChallengeForUser emailS "authentication" >>= fun expectChallenge =>
  getItem clientData.challenge >>= fun declaredChallenge =>
  b64urlDecode declaredChallenge >>= fun decoded =>
  pyAssert (decoded == expectChallenge) >>= fun _ =>
  originCheck rpId clientData >>= fun _ =>
  parseAuthenticatorData authenticatorData >>= fun ad =>
  pyAssert ad.userPresent >>= fun _ =>
  st.getCredentialByEmail emailS >>= fun credential =>
  credential.verify env signature (ad.rawAuthData ++ env.sha256 clientDataJson)
    >>= fun _ =>
  .ok ⟨true⟩

/-- One entry of the metadata table of contents
(`fido/metadata.py`): the optional `attestationCertificateKeyIdentifiers`
list (`e.get(..., [])`) and the `url` of the per-entry metadata record. -/
structure MetadataEntry where
  attestationCertificateKeyIdentifiers : Option (List String)
  url : String
deriving DecidableEq

/-- `e.get("attestationCertificateKeyIdentifiers", [])`. -/
def MetadataEntry.keyIds (e : MetadataEntry) : List String :=
  e.attestationCertificateKeyIdentifiers.getD []

/-- The decoded metadata table of contents (`entries` key). -/
structure MetadataTOC where
  entries : List MetadataEntry
deriving DecidableEq

/-- `FIDOMetadataClient.metadata_for_key_id`, uncached body: scan the TOC
entries for the first one listing `key_id` among its key identifiers
(`KeyError` when none does), then fetch and decode the entry's record
(the HTTP fetch composed with base64/JSON decoding is the `fetchRecord`
oracle of the environment). -/
def metadataForKeyIdUncached (env : Env) (toc : MetadataTOC) (keyId : String) :
    Except Err Bytes :=
  match toc.entries.find? (fun e => e.keyIds.contains keyId) with
  | some e => .ok (env.fetchRecord e.url)
  | none => .error .keyError

/-- State of the `functools.lru_cache(64)` wrapper on
`metadata_for_key_id`: memoized (key, record) pairs, most recently used
first. -/
structure MetaCache where
  entries : List (String × Bytes)
deriving DecidableEq

/-- The cache bound declared by `lru_cache(64)`. -/
def MetaCache.maxsize : Nat := 64

/-- `metadata_for_key_id` with its `lru_cache(64)` wrapper, modelling the
cache explicitly: a hit returns the memoized record and moves it to the
front; a miss computes the body, memoizing a successful result (evicting
beyond the 64-entry bound; `lru_cache` does not memoize raised
exceptions). -/
def metadataForKeyId (env : Env) (toc : MetadataTOC) (cache : MetaCache)
    (keyId : String) : Except Err Bytes × MetaCache :=
  match cache.entries.find? (fun p => p.1 == keyId) with
  | some p =>
      (.ok p.2,
       ⟨(p.1, p.2) :: cache.entries.filter (fun q => !(q.1 == keyId))⟩)
  | none =>
      match metadataForKeyIdUncached env toc keyId with
      | .ok v => (.ok v, ⟨((keyId, v) :: cache.entries).take MetaCache.maxsize⟩)
      | .error e => (.error e, cache)

/-- Concrete authenticator-data bytes used by witnesses: 32-byte RP-ID hash
of zeros, flags 65 (user present and attested credential data), zero
counter, zero AAGUID, credential-ID length 1, credential ID `[7]`, COSE key
bytes `[5]`. -/
def cAuthDataBytes : Bytes :=
  List.replicate 32 0 ++ [65] ++ [0, 0, 0, 0] ++ List.replicate 16 0 ++
    [0, 1] ++ [7] ++ [5]

/-- Like `cAuthDataBytes` but with the user-present flag bit cleared
(flags 64). -/
def cAuthDataBytesNoUP : Bytes :=
  List.replicate 32 0 ++ [64] ++ [0, 0, 0, 0] ++ List.replicate 16 0 ++
    [0, 1] ++ [7] ++ [5]

/-- Concrete decoded attestation object used by witnesses. -/
def cResp : AttestationResponse :=
  ⟨some cAuthDataBytes, some "fido-u2f", some ⟨[0], [[1]]⟩⟩

/-- Concrete environment used by witnesses: every oracle returns a fixed
small value and both signature verifications accept. -/
def cEnv : Env := {
  tokenBytes := fun n => List.replicate n 0
  sha256 := fun _ => []
  utf8Encode := fun s => s.toList.map Char.toNat
  utf8Decode := fun _ => .ok "a@b.c"
  jsonLoads := fun _ => .ok ⟨some "webauthn.create", some "", some "https://x"⟩
  cborLoads := fun _ => .ok cResp
  coseXY := fun _ => .ok ([], [])
  certVerify := fun _ _ _ => true
  pkVerify := fun _ _ _ => true
  fetchRecord := fun _ => [] }

/-- Concrete storage used by witnesses: empty challenges stored for both
purposes and one stored credential. -/
def cSt : Storage :=
  ⟨[("a@b.c", "registration", []), ("a@b.c", "authentication", [])],
   [("a@b.c", ⟨[1, 2, 3], [9]⟩)]⟩

/-- Trailer appended after an arbitrary 32-byte RP-ID hash to form
authenticator data with user-present and attested flags set: flags 65, zero
counter, zero AAGUID, credential-ID length 1, credential ID `[7]`, COSE key
bytes `[5]`. -/
def c3Tail : Bytes :=
  [65, 0, 0, 0, 0, 0, 0, 0, 0, 0, 0, 0, 0, 0, 0, 0, 0, 0, 0, 0, 0, 0, 1, 7, 5]

/-- Environment family indexed by an RP-ID hash `h`: the attestation object
carries authenticator data whose hash field is `h`, and the certificate
verification oracle accepts exactly the U2F signed strings whose embedded
RP-ID hash equals `h`. -/
def c3Env (h : Bytes) : Env :=
  { cEnv with
    cborLoads := fun _ => .ok ⟨some (h ++ c3Tail), some "fido-u2f", some ⟨[0], [[1]]⟩⟩
    certVerify := fun _ _ m => decide (m.take 33 = 0 :: h) }

theorem ok_bind {α β : Type} (a : α) (f : α → Except Err β) :
    (Except.ok a >>= f) = f a := rfl

theorem error_bind {α β : Type} (e : Err) (f : α → Except Err β) :
    ((Except.error e : Except Err α) >>= f) = .error e := rfl

theorem except_bind_ok {α β : Type} {m : Except Err α} {f : α → Except Err β}
    {c : β} : m >>= f = .ok c ↔ ∃ b, m = .ok b ∧ f b = .ok c := by
  cases m with
  | ok a => simp [ok_bind]
  | error e => simp [error_bind]

theorem pyAssert_ok {b : Bool} {u : Unit} (h : pyAssert b = .ok u) :
    b = true := by
  cases b
  · simp [pyAssert] at h
  · rfl

theorem getItem_ok {α : Type} {o : Option α} {a : α} (h : getItem o = .ok a) :
    o = some a := by
  cases o with
  | none => simp [getItem] at h
  | some b => simp [getItem] at h; rw [h]

theorem guard_ok {b : Bool} {e : Err} {u : Unit}
    (h : (if b then Except.ok () else Except.error e) = .ok u) : b = true := by
  cases b
  · simp at h
  · rfl

theorem emailShapeCheck_ok {s : String} {u : Unit}
    (h : emailShapeCheck s = .ok u) : emailMatch s = true := by
  cases hm : emailMatch s
  · rw [emailShapeCheck, hm] at h; simp at h
  · rfl

theorem credVerify_ok {c : Credential} {env : Env} {signature msg : Bytes}
    {u : Unit} (h : c.verify env signature msg = .ok u) :
    env.pkVerify c.publicKey signature msg = true := by
  cases hv : env.pkVerify c.publicKey signature msg
  · rw [Credential.verify, hv] at h; simp at h
  · rfl

/-- C1: the checks of `register` are applied fail-fast in the spec's order
(attestation-object decode, identifier shape, client-data type,
stored-challenge equality after base64url-decoding, origin when `rp_id` is
configured, user-present flag, `fmt == "fido-u2f"`, attestation validation),
any failure aborts with no credential persisted, and
`save_credential_for_user` runs exactly when every check has passed. -/
theorem register_fail_fast_gates_persistence
    (env : Env) (st : Storage) (rpId : Option String)
    (cdj ao : Bytes) (email : PyStr) :
    (∀ e, (register env st rpId cdj ao email).1 = .error e →
        (register env st rpId cdj ao email).2 = st) ∧
    (∀ r st', register env st rpId cdj ao email = (.ok r, st') →
        ∃ resp emailS clientData ty stored ch dc adRaw ad fmt stmt att,
          env.cborLoads ao = .ok resp ∧
          email.pyDecode env = .ok emailS ∧
          emailMatch emailS = true ∧
          env.jsonLoads cdj = .ok clientData ∧
          clientData.ty = some ty ∧ ty = "webauthn.create" ∧
          st.getChallengeForUser emailS "registration" = .ok stored ∧
          clientData.challenge = some ch ∧
          b64urlDecode ch = .ok dc ∧ dc = stored ∧
          originCheck rpId clientData = .ok () ∧
          resp.authData = some adRaw ∧
          parseAuthenticatorData adRaw = .ok ad ∧
          ad.userPresent = true ∧
          resp.fmt = some fmt ∧ fmt = "fido-u2f" ∧
          resp.attStmt = some stmt ∧
          stmt.validate env ad ad.rpIdHash (env.sha256 cdj) = .ok att ∧
          st' = st.saveCredentialForUser emailS att.credential) ∧
    (∀ e, env.cborLoads ao = .error e →
        register env st rpId cdj ao email = (.error e, st)) ∧
    (∀ resp e, env.cborLoads ao = .ok resp →
        email.pyDecode env = .error e →
        register env st rpId cdj ao email = (.error e, st)) ∧
    (∀ resp emailS, env.cborLoads ao = .ok resp →
        email.pyDecode env = .ok emailS → emailMatch emailS = false →
        register env st rpId cdj ao email = (.error .invalidEmail, st)) ∧
    (∀ resp emailS clientData ty, env.cborLoads ao = .ok resp →
        email.pyDecode env = .ok emailS → emailMatch emailS = true →
        env.jsonLoads cdj = .ok clientData → clientData.ty = some ty →
        ty ≠ "webauthn.create" →
        register env st rpId cdj ao email = (.error .assertionError, st)) ∧
    (∀ resp emailS clientData stored ch dc, env.cborLoads ao = .ok resp →
        email.pyDecode env = .ok emailS → emailMatch emailS = true →
        env.jsonLoads cdj = .ok clientData →
        clientData.ty = some "webauthn.create" →
        st.getChallengeForUser emailS "registration" = .ok stored →
        clientData.challenge = some ch → b64urlDecode ch = .ok dc →
        dc ≠ stored →
        register env st rpId cdj ao email = (.error .assertionError, st)) ∧
    (∀ resp emailS clientData stored ch o, env.cborLoads ao = .ok resp →
        email.pyDecode env = .ok emailS → emailMatch emailS = true →
        env.jsonLoads cdj = .ok clientData →
        clientData.ty = some "webauthn.create" →
        st.getChallengeForUser emailS "registration" = .ok stored →
        clientData.challenge = some ch → b64urlDecode ch = .ok stored →
        strTruthy rpId = true → clientData.origin = some o →
        isSecureAndSameOrigin (rpId.getD "") o = false →
        register env st rpId cdj ao email = (.error .assertionError, st)) ∧
    (∀ resp emailS clientData stored ch adRaw ad, env.cborLoads ao = .ok resp →
        email.pyDecode env = .ok emailS → emailMatch emailS = true →
        env.jsonLoads cdj = .ok clientData →
        clientData.ty = some "webauthn.create" →
        st.getChallengeForUser emailS "registration" = .ok stored →
        clientData.challenge = some ch → b64urlDecode ch = .ok stored →
        originCheck rpId clientData = .ok () →
        resp.authData = some adRaw → parseAuthenticatorData adRaw = .ok ad →
        ad.userPresent = false →
        register env st rpId cdj ao email = (.error .assertionError, st)) ∧
    (∀ resp emailS clientData stored ch adRaw ad fmt,
        env.cborLoads ao = .ok resp →
        email.pyDecode env = .ok emailS → emailMatch emailS = true →
        env.jsonLoads cdj = .ok clientData →
        clientData.ty = some "webauthn.create" →
        st.getChallengeForUser emailS "registration" = .ok stored →
        clientData.challenge = some ch → b64urlDecode ch = .ok stored →
        originCheck rpId clientData = .ok () →
        resp.authData = some adRaw → parseAuthenticatorData adRaw = .ok ad →
        ad.userPresent = true →
        resp.fmt = some fmt → fmt ≠ "fido-u2f" →
        register env st rpId cdj ao email = (.error .assertionError, st)) ∧
    (∀ resp emailS clientData stored ch adRaw ad stmt e,
        env.cborLoads ao = .ok resp →
        email.pyDecode env = .ok emailS → emailMatch emailS = true →
        env.jsonLoads cdj = .ok clientData →
        clientData.ty = some "webauthn.create" →
        st.getChallengeForUser emailS "registration" = .ok stored →
        clientData.challenge = some ch → b64urlDecode ch = .ok stored →
        originCheck rpId clientData = .ok () →
        resp.authData = some adRaw → parseAuthenticatorData adRaw = .ok ad →
        ad.userPresent = true →
        resp.fmt = some "fido-u2f" →
        resp.attStmt = some stmt →
        stmt.validate env ad ad.rpIdHash (env.sha256 cdj) = .error e →
        register env st rpId cdj ao email = (.error e, st)) := by
  refine ⟨?_, ?_, ?_, ?_, ?_, ?_, ?_, ?_, ?_, ?_, ?_⟩
  · intro e h
    unfold register at h ⊢
    cases hE : registerE env st rpId cdj ao email with
    | ok p => obtain ⟨r0, st0⟩ := p; rw [hE] at h; simp at h
    | error e' => rfl
  · intro r st' h
    have hE : registerE env st rpId cdj ao email = .ok (r, st') := by
      unfold register at h
      cases hE' : registerE env st rpId cdj ao email with
      | error e => rw [hE'] at h; simp at h
      | ok p =>
        obtain ⟨r0, st0⟩ := p
        rw [hE'] at h
        simp only [Prod.mk.injEq, Except.ok.injEq] at h
        rw [h.1, h.2]
    · unfold registerE at hE
      rcases except_bind_ok.mp hE with ⟨resp, hresp, hE⟩
      rcases except_bind_ok.mp hE with ⟨emailS, hdec, hE⟩
      rcases except_bind_ok.mp hE with ⟨u₁, hif, hE⟩
      have hm := guard_ok hif
      rcases except_bind_ok.mp hE with ⟨clientData, hjson, hE⟩
      rcases except_bind_ok.mp hE with ⟨ty, htyItem, hE⟩
      have hty := getItem_ok htyItem
      rcases except_bind_ok.mp hE with ⟨u₂, htyAssert, hE⟩
      have htyEq : ty = "webauthn.create" := by
        simpa using pyAssert_ok htyAssert
      rcases except_bind_ok.mp hE with ⟨stored, hstored, hE⟩
      rcases except_bind_ok.mp hE with ⟨ch, hchItem, hE⟩
      have hch := getItem_ok hchItem
      rcases except_bind_ok.mp hE with ⟨dc, hb64, hE⟩
      rcases except_bind_ok.mp hE with ⟨u₃, hchAssert, hE⟩
      have hdcEq : dc = stored := by
        simpa using pyAssert_ok hchAssert
      rcases except_bind_ok.mp hE with ⟨u₄, horigin, hE⟩
      rcases except_bind_ok.mp hE with ⟨adRaw, hadItem, hE⟩
      have had := getItem_ok hadItem
      rcases except_bind_ok.mp hE with ⟨ad, hparse, hE⟩
      rcases except_bind_ok.mp hE with ⟨u₅, hupAssert, hE⟩
      have hup : ad.userPresent = true := pyAssert_ok hupAssert
      rcases except_bind_ok.mp hE with ⟨fmt, hfmtItem, hE⟩
      have hfmt := getItem_ok hfmtItem
      rcases except_bind_ok.mp hE with ⟨u₆, hfmtAssert, hE⟩
      have hfmtEq : fmt = "fido-u2f" := by
        simpa using pyAssert_ok hfmtAssert
      rcases except_bind_ok.mp hE with ⟨stmt, hstmtItem, hE⟩
      have hstmt := getItem_ok hstmtItem
      rcases except_bind_ok.mp hE with ⟨att, hval, hE⟩
      injection hE with hpair
      refine ⟨resp, emailS, clientData, ty, stored, ch, dc, adRaw, ad, fmt,
        stmt, att, hresp, hdec, hm, hjson, hty, htyEq, hstored, hch, hb64,
        hdcEq, horigin, had, hparse, hup, hfmt, hfmtEq, hstmt, hval,
        (congrArg Prod.snd hpair).symm⟩
  · intro e h
    simp [register, registerE, h, error_bind]
  · intro resp e h1 h2
    simp [register, registerE, h1, h2, ok_bind, error_bind]
  · intro resp emailS h1 h2 h3
    simp [register, registerE, emailShapeCheck, h1, h2, h3, ok_bind,
      error_bind]
  · intro resp emailS clientData ty h1 h2 h3 h4 h5 h6
    simp [register, registerE, emailShapeCheck, h1, h2, h3, h4, h5, h6,
      ok_bind, error_bind, getItem, pyAssert]
  · intro resp emailS clientData stored ch dc h1 h2 h3 h4 h5 h6 h7 h8 h9
    simp [register, registerE, emailShapeCheck, h1, h2, h3, h4, h5, h6, h7,
      h8, h9, ok_bind, error_bind, getItem, pyAssert]
  · intro resp emailS clientData stored ch o h1 h2 h3 h4 h5 h6 h7 h8 h9 h10 h11
    simp [register, registerE, emailShapeCheck, originCheck, h1, h2, h3, h4,
      h5, h6, h7, h8, h9, h10, h11, ok_bind, error_bind, getItem, pyAssert]
  · intro resp emailS clientData stored ch adRaw ad h1 h2 h3 h4 h5 h6 h7 h8
      h9 h10 h11 h12
    simp [register, registerE, emailShapeCheck, h1, h2, h3, h4, h5, h6, h7,
      h8, h9, h10, h11, h12, ok_bind, error_bind, getItem, pyAssert]
  · intro resp emailS clientData stored ch adRaw ad fmt h1 h2 h3 h4 h5 h6 h7
      h8 h9 h10 h11 h12 h13 h14
    simp [register, registerE, emailShapeCheck, h1, h2, h3, h4, h5, h6, h7,
      h8, h9, h10, h11, h12, h13, h14, ok_bind, error_bind, getItem, pyAssert]
  · intro resp emailS clientData stored ch adRaw ad stmt e h1 h2 h3 h4 h5 h6
      h7 h8 h9 h10 h11 h12 h13 h14 h15
    simp [register, registerE, emailShapeCheck, h1, h2, h3, h4, h5, h6, h7,
      h8, h9, h10, h11, h12, h13, h14, h15, ok_bind, error_bind, getItem,
      pyAssert]

/-- Witness for C1: with the CBOR decoder failing on the concrete input, the
first check aborts the whole registration with its own error and the storage
is unchanged. -/
theorem register_fail_fast_gates_persistence_witness :
    register { cEnv with cborLoads := fun _ => .error .malformedInput } cSt
      (some "x") [] [] (.bytes []) = (.error .malformedInput, cSt) :=
  (register_fail_fast_gates_persistence
      { cEnv with cborLoads := fun _ => .error .malformedInput } cSt
      (some "x") [] [] (.bytes [])).2.2.1 .malformedInput (by decide)

/-- C2: `verify` succeeds only if the client-data type is `"webauthn.get"`,
the base64url-decoded declared challenge equals the stored authentication
challenge byte-for-byte, the user-present flag is set, and the signature
verifies over exactly `raw_auth_data ++ SHA-256(client_data_json)` with the
stored credential's public key; and when every prior check passes but the
signature does not verify, the operation fails with the verification
error. -/
theorem verify_requires_checks_and_signature
    (env : Env) (st : Storage) (rpId : Option String)
    (authData cdj signature uh rid : Bytes) (email : PyStr) :
    (∀ r, verify env st rpId authData cdj signature uh rid email = .ok r →
        ∃ emailS clientData ty stored ch dc ad credential,
          email.pyDecode env = .ok emailS ∧
          emailMatch emailS = true ∧
          env.jsonLoads cdj = .ok clientData ∧
          clientData.ty = some ty ∧ ty = "webauthn.get" ∧
          st.getChallengeForUser emailS "authentication" = .ok stored ∧
          clientData.challenge = some ch ∧
          b64urlDecode ch = .ok dc ∧ dc = stored ∧
          originCheck rpId clientData = .ok () ∧
          parseAuthenticatorData authData = .ok ad ∧
          ad.userPresent = true ∧
          st.getCredentialByEmail emailS = .ok credential ∧
          env.pkVerify credential.publicKey signature
            (ad.rawAuthData ++ env.sha256 cdj) = true) ∧
    (∀ emailS clientData stored ch ad credential,
        email.pyDecode env = .ok emailS → emailMatch emailS = true →
        env.jsonLoads cdj = .ok clientData →
        clientData.ty = some "webauthn.get" →
        st.getChallengeForUser emailS "authentication" = .ok stored →
        clientData.challenge = some ch → b64urlDecode ch = .ok stored →
        originCheck rpId clientData = .ok () →
        parseAuthenticatorData authData = .ok ad → ad.userPresent = true →
        st.getCredentialByEmail emailS = .ok credential →
        env.pkVerify credential.publicKey signature
          (ad.rawAuthData ++ env.sha256 cdj) = false →
        verify env st rpId authData cdj signature uh rid email =
          .error .verificationError) := by
  constructor
  · intro r h
    unfold verify at h
    rcases except_bind_ok.mp h with ⟨emailS, hdec, h⟩
    rcases except_bind_ok.mp h with ⟨u₁, hif, h⟩
    have hm := emailShapeCheck_ok hif
    rcases except_bind_ok.mp h with ⟨clientData, hjson, h⟩
    rcases except_bind_ok.mp h with ⟨ty, htyItem, h⟩
    have hty := getItem_ok htyItem
    rcases except_bind_ok.mp h with ⟨u₂, htyAssert, h⟩
    have htyEq : ty = "webauthn.get" := by simpa using pyAssert_ok htyAssert
    rcases except_bind_ok.mp h with ⟨stored, hstored, h⟩
    rcases except_bind_ok.mp h with ⟨ch, hchItem, h⟩
    have hch := getItem_ok hchItem
    rcases except_bind_ok.mp h with ⟨dc, hb64, h⟩
    rcases except_bind_ok.mp h with ⟨u₃, hchAssert, h⟩
    have hdcEq : dc = stored := by simpa using pyAssert_ok hchAssert
    rcases except_bind_ok.mp h with ⟨u₄, horigin, h⟩
    rcases except_bind_ok.mp h with ⟨ad, hparse, h⟩
    rcases except_bind_ok.mp h with ⟨u₅, hupAssert, h⟩
    have hup := pyAssert_ok hupAssert
    rcases except_bind_ok.mp h with ⟨credential, hcred, h⟩
    rcases except_bind_ok.mp h with ⟨u₆, hsig, h⟩
    have hsigT := credVerify_ok hsig
    exact ⟨emailS, clientData, ty, stored, ch, dc, ad, credential, hdec, hm,
      hjson, hty, htyEq, hstored, hch, hb64, hdcEq, horigin, hparse, hup,
      hcred, hsigT⟩
  · intro emailS clientData stored ch ad credential h1 h2 h3 h4 h5 h6 h7 h8
      h9 h10 h11 h12
    simp [verify, emailShapeCheck, Credential.verify, h1, h2, h3, h4, h5, h6,
      h7, h8, h9, h10, h11, h12, ok_bind, error_bind, getItem, pyAssert]

/-- Witness for C2: a concrete run in which every check passes but the
signature oracle rejects fails with the verification error. -/
theorem verify_requires_checks_and_signature_witness :
    verify { cEnv with
        jsonLoads := fun _ => .ok ⟨some "webauthn.get", some "", some "https://x"⟩
        pkVerify := fun _ _ _ => false }
      cSt (some "x") cAuthDataBytes [] [] [] [] (.bytes []) =
      .error .verificationError :=
  (verify_requires_checks_and_signature
      { cEnv with
        jsonLoads := fun _ => .ok ⟨some "webauthn.get", some "", some "https://x"⟩
        pkVerify := fun _ _ _ => false }
      cSt (some "x") cAuthDataBytes [] [] [] [] (.bytes [])).2
    "a@b.c" ⟨some "webauthn.get", some "", some "https://x"⟩ [] ""
    ⟨List.replicate 32 0, 65, 0, some ⟨List.replicate 16 0, [7], [5]⟩,
      cAuthDataBytes⟩
    ⟨[1, 2, 3], [9]⟩
    (by decide) (by decide) (by decide) (by decide) (by decide) (by decide)
    (by decide) (by decide) (by decide) (by decide) (by decide) (by decide)

/-- C3: `register` never compares the RP-ID hash embedded in the
authenticator data with SHA-256 of the configured `rp_id`: with `rp_id`
configured as `"x"` and an SHA-256 oracle that never returns `h`, the
registration still succeeds for every 32-byte value `h` of the embedded
hash field, and the certificate-verification oracle of `c3Env h` accepts
only U2F signed strings that embed exactly `h`, so the validator received
`h`, the hash taken from the parsed authenticator data itself. -/
theorem register_ignores_rp_id_hash_binding (h : Bytes)
    (hlen : h.length = 32) :
    parseAuthenticatorData (h ++ c3Tail) =
      .ok ⟨h, 65, 0,
        some ⟨[0, 0, 0, 0, 0, 0, 0, 0, 0, 0, 0, 0, 0, 0, 0, 0], [7], [5]⟩,
        h ++ c3Tail⟩ ∧
    register (c3Env h) cSt (some "x") [] [] (.bytes []) =
      (.ok ⟨true⟩, cSt.saveCredentialForUser "a@b.c" ⟨[7], [5]⟩) := by
  have e1 : (h ++ c3Tail).length = 57 := by simp [c3Tail, hlen]
  have e2 : (h ++ c3Tail).take 32 = h := by
    have := List.take_left h c3Tail
    rwa [hlen] at this
  have e3 : (h ++ c3Tail).getD 32 0 = 65 := by
    rw [List.getD_eq_getElem?_getD, List.getElem?_append_right (by omega)]
    rw [hlen]
    decide
  have e4 : (h ++ c3Tail).drop 33 = c3Tail.drop 1 := by
    have := @List.drop_append Nat h c3Tail 1
    rw [hlen] at this
    simpa using this
  have e5 : (h ++ c3Tail).drop 37 = c3Tail.drop 5 := by
    have := @List.drop_append Nat h c3Tail 5
    rw [hlen] at this
    simpa using this
  have e6 : Nat.testBit 65 6 = true := by decide
  have hparse : parseAuthenticatorData (h ++ c3Tail) =
      .ok ⟨h, 65, 0,
        some ⟨[0, 0, 0, 0, 0, 0, 0, 0, 0, 0, 0, 0, 0, 0, 0, 0], [7], [5]⟩,
        h ++ c3Tail⟩ := by
    unfold parseAuthenticatorData
    rw [e1]
    simp only [e2, e3, e4, e5, e6]
    norm_num [c3Tail, beBytesToNat]
  refine ⟨hparse, ?_⟩
  have hem : emailMatch "a@b.c" = true := by decide
  have hb64 : b64urlDecode "" = .ok [] := by decide
  have hchal : cSt.getChallengeForUser "a@b.c" "registration" = .ok [] := by
    decide
  have horig : originCheck (some "x")
      ⟨some "webauthn.create", some "", some "https://x"⟩ = .ok () := by decide
  have mtake : (h ++ [7, 4]).take 32 = h := by
    have := List.take_left h [7, 4]
    rwa [hlen] at this
  unfold register registerE
  simp [c3Env, cEnv, hparse, hem, hb64, hchal, horig, mtake,
    emailShapeCheck, getItem, pyAssert,
    FIDOU2FAttestationStatement.validate, AuthenticatorData.userPresent,
    ok_bind, error_bind, PyStr.pyDecode]

/-- Witness for C3: the theorem applied at the concrete 32-byte hash value
33333...3. -/
theorem register_ignores_rp_id_hash_binding_witness :
    register (c3Env (List.replicate 32 3)) cSt (some "x") [] [] (.bytes []) =
      (.ok ⟨true⟩, cSt.saveCredentialForUser "a@b.c" ⟨[7], [5]⟩) :=
  (register_ignores_rp_id_hash_binding (List.replicate 32 3) (by decide)).2

theorem originCheck_falsy {rpId : Option String} {cd : ClientData}
    (hf : strTruthy rpId = false) : originCheck rpId cd = .ok () := by
  simp [originCheck, hf]

theorem pyDecode_jsonLoads_update (env : Env)
    (f : Bytes → Except Err ClientData) (email : PyStr) :
    PyStr.pyDecode { env with jsonLoads := f } email =
      PyStr.pyDecode env email := by
  cases email <;> rfl

theorem validate_jsonLoads_update (env : Env)
    (f : Bytes → Except Err ClientData) (stmt : FIDOU2FAttestationStatement)
    (ad : AuthenticatorData) (rh ch : Bytes) :
    stmt.validate { env with jsonLoads := f } ad rh ch =
      stmt.validate env ad rh ch := rfl

theorem credVerify_jsonLoads_update (env : Env)
    (f : Bytes → Except Err ClientData) (c : Credential)
    (signature msg : Bytes) :
    c.verify { env with jsonLoads := f } signature msg =
      c.verify env signature msg := rfl

/-- C4: when `rp_id` is truthy, `register` and `verify` accept a declared
origin exactly when the string `"https://" ++ rp_id` is a prefix of it, so
any origin extending that prefix with arbitrary trailing characters is
accepted; when `rp_id` is falsy, no origin check is performed at all and the
declared origin cannot influence either operation. -/
theorem origin_check_prefix_semantics :
    (∀ rpId origin, isSecureAndSameOrigin rpId origin = true ↔
        ("https://" ++ rpId).toList <+: origin.toList) ∧
    (∀ rpId extra : String,
        isSecureAndSameOrigin rpId ("https://" ++ rpId ++ extra) = true) ∧
    (∀ rpId clientData, strTruthy rpId = false →
        originCheck rpId clientData = .ok ()) ∧
    (∀ rpId clientData o, strTruthy rpId = true → clientData.origin = some o →
        (originCheck rpId clientData = .ok () ↔
          isSecureAndSameOrigin (rpId.getD "") o = true)) ∧
    (∀ (env : Env) (st : Storage) (cdj ao : Bytes) (email : PyStr)
        (ty ch o o' : Option String),
        register { env with jsonLoads := fun _ => .ok ⟨ty, ch, o⟩ }
          st none cdj ao email =
        register { env with jsonLoads := fun _ => .ok ⟨ty, ch, o'⟩ }
          st none cdj ao email) ∧
    (∀ (env : Env) (st : Storage) (ad cdj sig uh rid : Bytes) (email : PyStr)
        (ty ch o o' : Option String),
        verify { env with jsonLoads := fun _ => .ok ⟨ty, ch, o⟩ }
          st none ad cdj sig uh rid email =
        verify { env with jsonLoads := fun _ => .ok ⟨ty, ch, o'⟩ }
          st none ad cdj sig uh rid email) := by
  refine ⟨?_, ?_, ?_, ?_, ?_, ?_⟩
  · intro rpId origin
    simp [isSecureAndSameOrigin, List.isPrefixOf_iff_prefix]
  · intro rpId extra
    simp only [isSecureAndSameOrigin, List.isPrefixOf_iff_prefix]
    refine ⟨extra.toList, ?_⟩
    simp [String.toList]
  · intro rpId clientData hf
    exact originCheck_falsy hf
  · intro rpId clientData o ht ho
    cases hs : isSecureAndSameOrigin (rpId.getD "") o with
    | false => simp [originCheck, ht, ho, getItem, pyAssert, hs, ok_bind,
        error_bind]
    | true => simp [originCheck, ht, ho, getItem, pyAssert, hs, ok_bind,
        error_bind]
  · intro env st cdj ao email ty ch o o'
    simp [register, registerE, originCheck, strTruthy, ok_bind, error_bind,
      pyDecode_jsonLoads_update, validate_jsonLoads_update]
  · intro env st ad cdj sig uh rid email ty ch o o'
    simp [verify, originCheck, strTruthy, ok_bind, error_bind,
      pyDecode_jsonLoads_update, credVerify_jsonLoads_update]

/-- Witness for C4: no origin check happens with `rp_id` unset, and with
`rp_id = "x"` the check accepts exactly when the startswith test does. -/
theorem origin_check_prefix_semantics_witness :
    originCheck none ⟨none, none, none⟩ = .ok () ∧
    (originCheck (some "x") ⟨none, none, some "https://x/login"⟩ = .ok () ↔
      isSecureAndSameOrigin "x" "https://x/login" = true) :=
  ⟨origin_check_prefix_semantics.2.2.1 none ⟨none, none, none⟩ (by decide),
   origin_check_prefix_semantics.2.2.2.1 (some "x")
     ⟨none, none, some "https://x/login"⟩ "https://x/login" (by decide) rfl⟩

/-- C5: `get_registration_options` generates a 32-byte challenge, returns an
options record holding the base64url-encoded challenge, the RP name and id,
the user fields, exactly the three algorithms ES256/ES384/ES512, a 60000 ms
timeout, an empty exclusion list and attestation preference `"direct"`, and
the returned storage state has the challenge saved for the user under
purpose `"registration"` (and immediately retrievable). -/
theorem getRegistrationOptions_spec
    (env : Env) (st : Storage) (rpName : String) (rpId : Option String)
    (email : String) (displayName icon : Option String)
    (h32 : (env.tokenBytes 32).length = 32) :
    (getRegistrationOptions env st rpName rpId email displayName icon).1.challenge
      = b64Encode (env.tokenBytes 32) ∧
    (env.tokenBytes 32).length = 32 ∧
    (getRegistrationOptions env st rpName rpId email displayName icon).1.rpName
      = rpName ∧
    (getRegistrationOptions env st rpName rpId email displayName icon).1.rpId
      = rpId ∧
    (getRegistrationOptions env st rpName rpId email displayName icon).1.userId
      = b64Encode (env.utf8Encode email) ∧
    (getRegistrationOptions env st rpName rpId email displayName icon).1.userName
      = email ∧
    (getRegistrationOptions env st rpName rpId email displayName icon).1.userDisplayName
      = pyStrOr displayName email ∧
    (getRegistrationOptions env st rpName rpId email displayName icon).1.userIcon
      = icon ∧
    (getRegistrationOptions env st rpName rpId email displayName icon).1.pubKeyCredParams
      = [Algorithms.ES256, Algorithms.ES384, Algorithms.ES512] ∧
    (getRegistrationOptions env st rpName rpId email displayName icon).1.timeout
      = 60000 ∧
    (getRegistrationOptions env st rpName rpId email displayName icon).1.excludeCredentials
      = [] ∧
    (getRegistrationOptions env st rpName rpId email displayName icon).1.attestation
      = "direct" ∧
    (getRegistrationOptions env st rpName rpId email displayName icon).2
      = st.saveChallengeForUser email (env.tokenBytes 32) "registration" ∧
    (getRegistrationOptions env st rpName rpId email displayName icon).2.getChallengeForUser
      email "registration" = .ok (env.tokenBytes 32) := by
  refine ⟨rfl, h32, rfl, rfl, rfl, rfl, rfl, rfl, rfl, rfl, rfl, rfl, rfl, ?_⟩
  simp [getRegistrationOptions, Storage.saveChallengeForUser,
    Storage.getChallengeForUser, List.find?]

/-- Witness for C5: the theorem applied at a concrete environment whose
random-byte oracle returns 32 zero bytes. -/
theorem getRegistrationOptions_spec_witness :
    (getRegistrationOptions cEnv cSt "RP" (some "x") "u@v.w" none none).1.challenge
      = b64Encode (cEnv.tokenBytes 32) :=
  (getRegistrationOptions_spec cEnv cSt "RP" (some "x") "u@v.w" none none
    (by decide)).1

/-- C6: evaluation at the failing input. `get_authentication_options` places
the raw challenge bytes in the returned options record (the registration
path base64url-encodes its challenge; this path does not), while the
allow-list holds the base64url-encoded stored credential ID and the
challenge is saved under purpose `"authentication"` before the options are
returned. -/
theorem getAuthenticationOptions_raw_challenge_eval :
    getAuthenticationOptions cEnv cSt "a@b.c" =
      .ok ({ challenge := List.replicate 32 0, timeout := 60000,
             allowCredentials := [⟨"public-key", b64Encode [1, 2, 3]⟩] },
           cSt.saveChallengeForUser "a@b.c" (List.replicate 32 0)
             "authentication") ∧
    (getRegistrationOptions cEnv cSt "RP" (some "x") "a@b.c" none none).1.challenge
      = b64Encode (List.replicate 32 0) :=
  ⟨by decide, by decide⟩

/-- C7 counterexample: two different failed checks — a challenge mismatch
and a cleared user-present flag — both abort `register` with the same
undifferentiated `AssertionError`, so the two failures are not
distinguishable by the error they raise. -/
theorem register_error_kinds_collapse_cex :
    (register { cEnv with jsonLoads :=
        fun _ => (.ok ⟨some "webauthn.create", some "AA", some "https://x"⟩) }
        cSt (some "x") [] [] (.bytes [])).1 = .error .assertionError ∧
    (register { cEnv with cborLoads :=
        fun _ => (.ok ⟨some cAuthDataBytesNoUP, some "fido-u2f",
                       some ⟨[0], [[1]]⟩⟩) }
        cSt (some "x") [] [] (.bytes [])).1 = .error .assertionError :=
  ⟨by decide, by decide⟩

/-- C7 (amended): the identifier check raises its own invalid-email
exception, but the five `assert`-based checks of `register` — client-data
type, challenge equality, origin, user-present flag, and attestation format
— all fail with the same undifferentiated `AssertionError`, so those checks
are not distinguishable from one another by error kind. -/
theorem register_assert_checks_share_error_kind
    (env : Env) (st : Storage) (rpId : Option String)
    (cdj ao : Bytes) (email : PyStr) :
    (∀ resp emailS, env.cborLoads ao = .ok resp →
        email.pyDecode env = .ok emailS → emailMatch emailS = false →
        (register env st rpId cdj ao email).1 = .error .invalidEmail) ∧
    (∀ resp emailS clientData ty, env.cborLoads ao = .ok resp →
        email.pyDecode env = .ok emailS → emailMatch emailS = true →
        env.jsonLoads cdj = .ok clientData → clientData.ty = some ty →
        ty ≠ "webauthn.create" →
        (register env st rpId cdj ao email).1 = .error .assertionError) ∧
    (∀ resp emailS clientData stored ch dc, env.cborLoads ao = .ok resp →
        email.pyDecode env = .ok emailS → emailMatch emailS = true →
        env.jsonLoads cdj = .ok clientData →
        clientData.ty = some "webauthn.create" →
        st.getChallengeForUser emailS "registration" = .ok stored →
        clientData.challenge = some ch → b64urlDecode ch = .ok dc →
        dc ≠ stored →
        (register env st rpId cdj ao email).1 = .error .assertionError) ∧
    (∀ resp emailS clientData stored ch o, env.cborLoads ao = .ok resp →
        email.pyDecode env = .ok emailS → emailMatch emailS = true →
        env.jsonLoads cdj = .ok clientData →
        clientData.ty = some "webauthn.create" →
        st.getChallengeForUser emailS "registration" = .ok stored →
        clientData.challenge = some ch → b64urlDecode ch = .ok stored →
        strTruthy rpId = true → clientData.origin = some o →
        isSecureAndSameOrigin (rpId.getD "") o = false →
        (register env st rpId cdj ao email).1 = .error .assertionError) ∧
    (∀ resp emailS clientData stored ch adRaw ad, env.cborLoads ao = .ok resp →
        email.pyDecode env = .ok emailS → emailMatch emailS = true →
        env.jsonLoads cdj = .ok clientData →
        clientData.ty = some "webauthn.create" →
        st.getChallengeForUser emailS "registration" = .ok stored →
        clientData.challenge = some ch → b64urlDecode ch = .ok stored →
        originCheck rpId clientData = .ok () →
        resp.authData = some adRaw → parseAuthenticatorData adRaw = .ok ad →
        ad.userPresent = false →
        (register env st rpId cdj ao email).1 = .error .assertionError) ∧
    (∀ resp emailS clientData stored ch adRaw ad fmt,
        env.cborLoads ao = .ok resp →
        email.pyDecode env = .ok emailS → emailMatch emailS = true →
        env.jsonLoads cdj = .ok clientData →
        clientData.ty = some "webauthn.create" →
        st.getChallengeForUser emailS "registration" = .ok stored →
        clientData.challenge = some ch → b64urlDecode ch = .ok stored →
        originCheck rpId clientData = .ok () →
        resp.authData = some adRaw → parseAuthenticatorData adRaw = .ok ad →
        ad.userPresent = true →
        resp.fmt = some fmt → fmt ≠ "fido-u2f" →
        (register env st rpId cdj ao email).1 = .error .assertionError) ∧
    Err.invalidEmail ≠ Err.assertionError ∧
    Err.verificationError ≠ Err.assertionError := by
  refine ⟨?_, ?_, ?_, ?_, ?_, ?_, by decide, by decide⟩
  · intro resp emailS h1 h2 h3
    simp [register, registerE, emailShapeCheck, h1, h2, h3, ok_bind,
      error_bind]
  · intro resp emailS clientData ty h1 h2 h3 h4 h5 h6
    simp [register, registerE, emailShapeCheck, h1, h2, h3, h4, h5, h6,
      ok_bind, error_bind, getItem, pyAssert]
  · intro resp emailS clientData stored ch dc h1 h2 h3 h4 h5 h6 h7 h8 h9
    simp [register, registerE, emailShapeCheck, h1, h2, h3, h4, h5, h6, h7,
      h8, h9, ok_bind, error_bind, getItem, pyAssert]
  · intro resp emailS clientData stored ch o h1 h2 h3 h4 h5 h6 h7 h8 h9 h10 h11
    simp [register, registerE, emailShapeCheck, originCheck, h1, h2, h3, h4,
      h5, h6, h7, h8, h9, h10, h11, ok_bind, error_bind, getItem, pyAssert]
  · intro resp emailS clientData stored ch adRaw ad h1 h2 h3 h4 h5 h6 h7 h8
      h9 h10 h11 h12
    simp [register, registerE, emailShapeCheck, h1, h2, h3, h4, h5, h6, h7,
      h8, h9, h10, h11, h12, ok_bind, error_bind, getItem, pyAssert]
  · intro resp emailS clientData stored ch adRaw ad fmt h1 h2 h3 h4 h5 h6 h7
      h8 h9 h10 h11 h12 h13 h14
    simp [register, registerE, emailShapeCheck, h1, h2, h3, h4, h5, h6, h7,
      h8, h9, h10, h11, h12, h13, h14, ok_bind, error_bind, getItem, pyAssert]

/-- Witness for the amended C7: a concrete run in which the identifier check
fails raises the invalid-email error, distinct from the asserts' error. -/
theorem register_assert_checks_share_error_kind_witness :
    (register { cEnv with utf8Decode := fun _ => .ok "nope" } cSt (some "x")
      [] [] (.bytes [])).1 = .error .invalidEmail :=
  (register_assert_checks_share_error_kind
      { cEnv with utf8Decode := fun _ => .ok "nope" } cSt (some "x") [] []
      (.bytes [])).1 cResp "nope" (by decide) (by decide) (by decide)

/-- C8: `metadata_for_key_id` fails with the not-found `KeyError` exactly
when no entry of the metadata table of contents lists the key id among its
`attestationCertificateKeyIdentifiers`; when at least one entry matches, the
record fetched from a matching entry's URL is returned; and per-key results
are memoized in the bounded 64-entry LRU cache, so a repeated call with the
same key id returns the cached record. -/
theorem metadataForKeyId_lookup_and_cache
    (env : Env) (toc : MetadataTOC) (cache : MetaCache) (keyId : String) :
    (metadataForKeyIdUncached env toc keyId = .error .keyError ↔
        ∀ e ∈ toc.entries, keyId ∉ e.keyIds) ∧
    ((∃ e ∈ toc.entries, keyId ∈ e.keyIds) →
        ∃ e ∈ toc.entries, keyId ∈ e.keyIds ∧
          metadataForKeyIdUncached env toc keyId =
            .ok (env.fetchRecord e.url)) ∧
    (∀ v, (metadataForKeyId env toc cache keyId).1 = .ok v →
        (metadataForKeyId env toc (metadataForKeyId env toc cache keyId).2
            keyId).1 = .ok v) ∧
    (cache.entries.length ≤ 64 →
        (metadataForKeyId env toc cache keyId).2.entries.length ≤ 64) := by
  refine ⟨?_, ?_, ?_, ?_⟩
  · cases hf : toc.entries.find? (fun e => e.keyIds.contains keyId) with
    | none =>
      have hall := List.find?_eq_none.mp hf
      simp only [metadataForKeyIdUncached, hf]
      constructor
      · intro _ e he hmem
        exact hall e he (by simp [hmem])
      · intro _
        trivial
    | some e' =>
      have hp := List.find?_some hf
      have hm := List.mem_of_find?_eq_some hf
      simp only [metadataForKeyIdUncached, hf]
      constructor
      · intro hcontra
        cases hcontra
      · intro hall
        exact absurd hp (by simpa using hall e' hm)
  · rintro ⟨e, he, hmem⟩
    cases hf : toc.entries.find? (fun e => e.keyIds.contains keyId) with
    | none =>
      exact absurd (by simp [hmem] : e.keyIds.contains keyId = true)
        (by simpa using List.find?_eq_none.mp hf e he)
    | some e' =>
      refine ⟨e', List.mem_of_find?_eq_some hf, ?_, ?_⟩
      · simpa using List.find?_some hf
      · simp only [metadataForKeyIdUncached]
        rw [hf]
  · cases hc : cache.entries.find? (fun p => p.1 == keyId) with
    | some p =>
      intro v hv
      have hp := List.find?_some hc
      simp only [metadataForKeyId, hc] at hv ⊢
      simp only [Except.ok.injEq] at hv
      simp [List.find?, hp, hv]
    | none =>
      cases hu : metadataForKeyIdUncached env toc keyId with
      | ok v' =>
        intro v hv
        simp only [metadataForKeyId, hc, hu] at hv ⊢
        simp only [Except.ok.injEq] at hv
        simp [MetaCache.maxsize, List.take_succ_cons, List.find?, hv]
      | error e =>
        intro v hv
        simp [metadataForKeyId, hc, hu] at hv
  · intro hb
    cases hc : cache.entries.find? (fun p => p.1 == keyId) with
    | some p =>
      have hp := List.find?_some hc
      have hm := List.mem_of_find?_eq_some hc
      have hlt : (cache.entries.filter (fun q => !(q.1 == keyId))).length <
          cache.entries.length :=
        List.length_filter_lt_length_iff_exists.mpr ⟨p, hm, by simp [hp]⟩
      simp only [metadataForKeyId, hc, List.length_cons]
      omega
    | none =>
      cases hu : metadataForKeyIdUncached env toc keyId with
      | ok v' =>
        simp only [metadataForKeyId, hc, hu]
        have := List.length_take MetaCache.maxsize
          ((keyId, v') :: cache.entries)
        simp only [MetaCache.maxsize] at this ⊢
        omega
      | error e =>
        simpa [metadataForKeyId, hc, hu] using hb

/-- Witness for C8: a one-entry table of contents in which the key id
matches, so the record fetched from that entry's URL is returned. -/
theorem metadataForKeyId_lookup_and_cache_witness :
    ∃ e ∈ (⟨[⟨some ["k1"], "https://meta/1"⟩]⟩ : MetadataTOC).entries,
      "k1" ∈ e.keyIds ∧
      metadataForKeyIdUncached cEnv ⟨[⟨some ["k1"], "https://meta/1"⟩]⟩ "k1" =
        .ok (cEnv.fetchRecord e.url) :=
  (metadataForKeyId_lookup_and_cache cEnv ⟨[⟨some ["k1"], "https://meta/1"⟩]⟩
      ⟨[]⟩ "k1").2.1 ⟨⟨some ["k1"], "https://meta/1"⟩, by decide, by decide⟩

/-- C9 counterexample: with a plain-string email argument and a malformed
attestation object, `register` fails with `MalformedInput` — one of the
spec's named error kinds — because the CBOR decode precedes the email
access, refuting the claim that every plain-string argument produces an
error outside the named kinds. -/
theorem register_str_email_named_error_cex :
    register { cEnv with cborLoads := fun _ => (.error .malformedInput) } cSt
      none [] [] (.str "someone@example.com") =
      (.error .malformedInput, cSt) :=
  by decide

/-- C9 (amended): `verify` calls `decode()` on the email first, so every
plain-string email fails with `AttributeError`; `register` decodes the
attestation object first, so a plain-string email fails with
`AttributeError` whenever that decode succeeds; and the identifier
validation is only ever applied to the decoded byte string. -/
theorem str_email_fails_decode_first
    (env : Env) (st : Storage) (rpId : Option String) :
    (∀ (s : String) (ad cdj sig uh rid : Bytes),
        verify env st rpId ad cdj sig uh rid (.str s) =
          .error .attributeError) ∧
    (∀ (s : String) (cdj ao : Bytes) (resp : AttestationResponse),
        env.cborLoads ao = .ok resp →
        register env st rpId cdj ao (.str s) =
          (.error .attributeError, st)) ∧
    (∀ (b : Bytes) (emailS : String) (cdj ao : Bytes)
        (resp : AttestationResponse),
        env.cborLoads ao = .ok resp →
        env.utf8Decode b = .ok emailS → emailMatch emailS = false →
        register env st rpId cdj ao (.bytes b) =
          (.error .invalidEmail, st)) := by
  refine ⟨?_, ?_, ?_⟩
  · intro s ad cdj sig uh rid
    simp [verify, PyStr.pyDecode, error_bind]
  · intro s cdj ao resp h
    simp [register, registerE, PyStr.pyDecode, h, ok_bind, error_bind]
  · intro b emailS cdj ao resp h1 h2 h3
    simp [register, registerE, PyStr.pyDecode, emailShapeCheck, h1, h2, h3,
      ok_bind, error_bind]

/-- Witness for the amended C9: with the attestation object decoding
successfully, a plain-string email aborts `register` with the attribute
error. -/
theorem str_email_fails_decode_first_witness :
    register cEnv cSt none [] [] (.str "x") = (.error .attributeError, cSt) :=
  (str_email_fails_decode_first cEnv cSt none).2.1 "x" [] [] cResp (by decide)

/-- C10: `get_registration_options` performs no identifier-shape validation:
for every identifier string it persists a challenge for that identifier and
returns the options record, and `"notanemail"` is an identifier that the
`register`/`verify` shape check rejects. -/
theorem getRegistrationOptions_no_email_validation :
    (∀ (env : Env) (st : Storage) (rpName : String) (rpId : Option String)
        (email : String) (dn icon : Option String),
        (getRegistrationOptions env st rpName rpId email dn icon).2 =
          st.saveChallengeForUser email (env.tokenBytes 32) "registration" ∧
        (getRegistrationOptions env st rpName rpId email dn icon).1.userName =
          email) ∧
    emailMatch "notanemail" = false :=
  ⟨fun _ _ _ _ _ _ _ => ⟨rfl, rfl⟩, by decide⟩

end Pywarp



